import Mathlib

/-!
Verification of the Thermo_PID control system.

This file gives a shallow embedding, over exact rational arithmetic, of the
discrete-time PID controller (`src/main/pid_tuner.py`, class `PID`) and of the
control-loop / gain-retuning logic (`src/main/main.py`), and proves or refutes
the specified properties of those components.
-/

namespace ThermoPID

/-- The state of the `PID` controller object, mirroring the fields set in
`PID.__init__` (src/main/pid_tuner.py, lines 9-24): configuration fields
`Kp, Ki, Kd, Kaw, T_C, T, max, min, max_rate` and running state
`integral, err_prev, deriv_prev, command_sat_prev, command_prev, command_sat`,
the latter all initialised to zero by the constructor. -/
structure PIDState where
  Kp : ℚ
  Ki : ℚ
  Kd : ℚ
  Kaw : ℚ
  T_C : ℚ
  T : ℚ
  max : ℚ
  min : ℚ
  max_rate : ℚ
  integral : ℚ
  err_prev : ℚ
  deriv_prev : ℚ
  command_sat_prev : ℚ
  command_prev : ℚ
  command_sat : ℚ
  deriving DecidableEq, Repr

/-- `PID.__init__(Kp, Ki, Kd, Kaw, T_C, T, max, min, max_rate)`: stores the
nine configuration values and zeroes all running state
(src/main/pid_tuner.py, lines 9-24). -/
def PID.init (Kp Ki Kd Kaw T_C T mx mn mr : ℚ) : PIDState :=
  { Kp := Kp, Ki := Ki, Kd := Kd, Kaw := Kaw, T_C := T_C, T := T
    max := mx, min := mn, max_rate := mr
    integral := 0, err_prev := 0, deriv_prev := 0
    command_sat_prev := 0, command_prev := 0, command_sat := 0 }

/-- The state transformation performed by `PID.Step(measurement, setpoint)`
(src/main/pid_tuner.py, lines 26-66), line by line:
error, integral update with anti-windup, filtered derivative, PID command,
store previous command, saturation to `[min, max]`, rate limiting against
`command_sat_prev`, and storing the new previous saturated command. -/
def PID.Step (s : PIDState) (measurement setpoint : ℚ) : PIDState :=
  let err := setpoint - measurement
  let integral := s.integral + s.Ki * err * s.T
      + s.Kaw * (s.command_sat_prev - s.command_prev) * s.T
  let deriv_filt := (err - s.err_prev + s.T_C * s.deriv_prev) / (s.T + s.T_C)
  let command := s.Kp * err + integral + s.Kd * deriv_filt
  let command_sat₁ :=
    if command > s.max then s.max
    else if command < s.min then s.min
    else command
  let command_sat₂ :=
    if command_sat₁ > s.command_sat_prev + s.max_rate * s.T then
      s.command_sat_prev + s.max_rate * s.T
    else if command_sat₁ < s.command_sat_prev - s.max_rate * s.T then
      s.command_sat_prev - s.max_rate * s.T
    else command_sat₁
  { s with
    integral := integral
    err_prev := err
    deriv_prev := deriv_filt
    command_prev := command
    command_sat := command_sat₂
    command_sat_prev := command_sat₂ }

/-- The value of the Python call expression `pid.Step(measurement, setpoint)`:
the mutated state paired with the call's value.  The body of `Step` ends
without a `return` statement (src/main/pid_tuner.py, line 66 is the last
line of the method), so in Python the call evaluates to `None`, here `none`. -/
def PID.StepCall (s : PIDState) (measurement setpoint : ℚ) :
    PIDState × Option ℚ :=
  (PID.Step s measurement setpoint, none)

/-- The sequence of saturated commands (`self.command_sat` after each call)
produced by repeated calls to `PID.Step` on a list of
(measurement, setpoint) inputs. -/
def PID.outputs (s : PIDState) : List (ℚ × ℚ) → List ℚ
  | [] => []
  | (m, sp) :: rest =>
      let s' := PID.Step s m sp
      s'.command_sat :: PID.outputs s' rest

/-- The controller constructed in src/main/main.py, lines 32-34:
`PID(Kp=0.5, Ki=0.1, Kd=0.01, Kaw=0.01, T_C=1, T=0.1, max=10, min=0,
max_rate=0.5)`. -/
def mainPID : PIDState :=
  PID.init (1/2) (1/10) (1/100) (1/100) 1 (1/10) 10 0 (1/2)

/-- The controller of the spec's concrete scenario (§8):
`Kp=1, Ki=Kd=Kaw=0, T_C=1, T=0.1, max=10, min=0, max_rate=0.5`. -/
def scenarioPID : PIDState :=
  PID.init 1 0 0 0 1 (1/10) 10 0 (1/2)

/-! ## The control loop of src/main/main.py -/

/-- The gain triple `(pid.Kp, pid.Ki, pid.Kd)` of the live controller object:
the state read as the optimizer seed (main.py line 94/142), written by the
closure `pid_cost` (lines 56-58) and by the retune assignment (line 143). -/
structure Gains where
  Kp : ℚ
  Ki : ℚ
  Kd : ℚ
  deriving DecidableEq, Repr

/-- `target_temp = 50.0` (src/main/main.py, line 23). -/
def target_temp : ℚ := 50

/-- `tuning_interval = 0.5` seconds (src/main/main.py, line 24). -/
def tuning_interval : ℚ := 1/2

/-- The gain triple of the controller constructed in src/main/main.py,
lines 32-34: `Kp=0.5, Ki=0.1, Kd=0.01`. -/
def mainGains : Gains := ⟨1/2, 1/10, 1/100⟩

/-- One evaluation of the closure `pid_cost(coefficients)` defined inside
`optimize_pid` (src/main/main.py, lines 50-65).  The call unpacks the
candidate triple, assigns it to the live controller's gain fields
(`pid.Kp = Kp; pid.Ki = Ki; pid.Kd = Kd`, lines 56-58), then accumulates
`total_error += (setpoint - temp) ** 2` over `temperature_history` and
returns the total.  The result here is the controller's gain state after the
call paired with the returned cost. -/
def pid_cost (pidGains : Gains) (coefficients : ℚ × ℚ × ℚ)
    (temperature_history : List ℚ) (setpoint : ℚ) : Gains × ℚ :=
  let Kp := coefficients.1
  let Ki := coefficients.2.1
  let Kd := coefficients.2.2
  let pidGains' : Gains := ⟨Kp, Ki, Kd⟩
  let total_error :=
    temperature_history.foldl (fun total temp => total + (setpoint - temp) ^ 2) 0
  (pidGains', total_error)

/-- `optimize_pid` (src/main/main.py, lines 41-75) runs
`scipy.optimize.minimize` and returns `result.x` unconditionally —
`result.success` is never inspected, and the function body contains no
exception handler, so an exception raised by the minimizer propagates to the
caller.  `minimize_outcome` stands for what the external minimizer does:
either it returns a point `x` or it raises. -/
def optimize_pid_result (minimize_outcome : Except Unit (ℚ × ℚ × ℚ)) :
    Except Unit Gains :=
  match minimize_outcome with
  | .ok x => .ok ⟨x.1, x.2.1, x.2.2⟩
  | .error e => .error e

/-- One tick's error-history update (src/main/main.py, lines 134-137):
`error_history.append(error)`, then `error_history.pop(0)` when
`len(error_history) > 50`. -/
def push (error_history : List ℚ) (error : ℚ) : List ℚ :=
  let h := error_history ++ [error]
  if h.length > 50 then h.tail else h

/-- Repeated application of `push`, one call per tick. -/
def pushAll (error_history : List ℚ) : List ℚ → List ℚ
  | [] => error_history
  | v :: vs => pushAll (push error_history v) vs

/-- The error history built by a run of ticks with the given measured
temperatures: each tick computes `error = target_temp - current_temp`
(main.py line 105) and pushes it (lines 134-137). -/
def error_history_of (setpoint : ℚ) (measurements : List ℚ) : List ℚ :=
  pushAll [] (measurements.map (fun m => setpoint - m))

/-- Line 141: `temperature_history = [target_temp - e for e in error_history]`. -/
def reconstruct_temperatures (setpoint : ℚ) (error_history : List ℚ) :
    List ℚ :=
  error_history.map (fun e => setpoint - e)

/-- Python float modulo `x % y` for a positive modulus: `x - y * ⌊x / y⌋`. -/
def pymod (x y : ℚ) : ℚ := x - y * ⌊x / y⌋

/-- The retune condition of src/main/main.py, line 140:
`len(error_history) > 10 and elapsed_time % 5 < tuning_interval`. -/
def optimization_trigger (hist_len : ℕ) (elapsed_time : ℚ) : Bool :=
  decide (hist_len > 10) && decide (pymod elapsed_time 5 < tuning_interval)

/-- The retune block of one tick (src/main/main.py, lines 139-143): when the
trigger condition holds, the optimizer's returned triple is assigned to the
controller's gains (line 143); otherwise the block is skipped and the gains
are untouched.  `optimize_result` stands for the triple the optimizer call
returns on this tick. -/
def retune (gains : Gains) (error_history : List ℚ) (elapsed_time : ℚ)
    (optimize_result : Gains) : Gains :=
  if optimization_trigger error_history.length elapsed_time then optimize_result
  else gains

/-- The ways the body of the `while True:` tick loop can terminate
(src/main/main.py, lines 97-152). -/
inductive TickExc
  | keyboardInterrupt
  | exception
  deriving DecidableEq, Repr

/-- The loop's continuation after one tick body. -/
inductive LoopOutcome
  | nextTick (gains : Gains)
  | interrupted
  | aborted
  deriving DecidableEq, Repr

/-- The exception handling of the tick loop (src/main/main.py, lines
147-152): a normal body yields its (possibly retuned) gains and the loop
continues; `KeyboardInterrupt` is logged and breaks the loop; any other
exception — including one propagating out of `optimize_pid` — is logged with
`log.error` and re-raised, aborting the loop. -/
def tick_result (body : Except TickExc Gains) : LoopOutcome :=
  match body with
  | .ok g => .nextTick g
  | .error .keyboardInterrupt => .interrupted
  | .error .exception => .aborted

/-! ## Helper lemmas about `PID.Step` -/

theorem init_command_sat_prev (Kp Ki Kd Kaw T_C T mx mn mr : ℚ) :
    (PID.init Kp Ki Kd Kaw T_C T mx mn mr).command_sat_prev = 0 := rfl

theorem init_max_rate (Kp Ki Kd Kaw T_C T mx mn mr : ℚ) :
    (PID.init Kp Ki Kd Kaw T_C T mx mn mr).max_rate = mr := rfl

theorem init_T (Kp Ki Kd Kaw T_C T mx mn mr : ℚ) :
    (PID.init Kp Ki Kd Kaw T_C T mx mn mr).T = T := rfl

theorem Step_min_eq (s : PIDState) (m sp : ℚ) :
    (PID.Step s m sp).min = s.min := rfl

theorem Step_max_eq (s : PIDState) (m sp : ℚ) :
    (PID.Step s m sp).max = s.max := rfl

theorem Step_prev_eq_sat (s : PIDState) (m sp : ℚ) :
    (PID.Step s m sp).command_sat_prev = (PID.Step s m sp).command_sat := rfl

/-- After saturation and rate limiting, one step's stored saturated command
stays inside `[min, max]` provided the previous saturated command was inside
`[min, max]`. -/
theorem Step_sat_bounds (s : PIDState) (m sp : ℚ)
    (hmm : s.min ≤ s.max) (h₁ : s.min ≤ s.command_sat_prev)
    (h₂ : s.command_sat_prev ≤ s.max) (hr : 0 ≤ s.max_rate * s.T) :
    s.min ≤ (PID.Step s m sp).command_sat ∧
      (PID.Step s m sp).command_sat ≤ s.max := by
  unfold PID.Step
  dsimp only
  split_ifs <;> constructor <;> linarith

/-- The rate limiter bounds the change of the stored saturated command
relative to the previous one by `max_rate * T`. -/
theorem Step_rate_bound (s : PIDState) (m sp : ℚ)
    (hr : 0 ≤ s.max_rate * s.T) :
    |(PID.Step s m sp).command_sat - s.command_sat_prev| ≤
      s.max_rate * s.T := by
  unfold PID.Step
  dsimp only
  rw [abs_le]
  split_ifs <;> constructor <;> linarith

/-- Every saturated command in a run stays in `[min, max]` as long as the
starting state's previous saturated command lies in `[min, max]`. -/
theorem outputs_mem_bounds (inputs : List (ℚ × ℚ)) :
    ∀ s : PIDState, s.min ≤ s.max → s.min ≤ s.command_sat_prev →
      s.command_sat_prev ≤ s.max → 0 ≤ s.max_rate * s.T →
      ∀ o ∈ PID.outputs s inputs, s.min ≤ o ∧ o ≤ s.max := by
  induction inputs with
  | nil =>
      intro s _ _ _ _ o ho
      simp [PID.outputs] at ho
  | cons p rest ih =>
      intro s hmm h₁ h₂ hr o ho
      obtain ⟨m, sp⟩ := p
      have hstep := Step_sat_bounds s m sp hmm h₁ h₂ hr
      simp only [PID.outputs, List.mem_cons] at ho
      rcases ho with rfl | hmem
      · exact hstep
      · exact ih (PID.Step s m sp) hmm hstep.1 hstep.2 hr o hmem

/-- Consecutive saturated commands of a run, starting from the state's
previous saturated command, always differ by at most `max_rate * T`. -/
theorem outputs_chain (inputs : List (ℚ × ℚ)) :
    ∀ s : PIDState, 0 ≤ s.max_rate * s.T →
      List.Chain (fun a b => |b - a| ≤ s.max_rate * s.T)
        s.command_sat_prev (PID.outputs s inputs) := by
  induction inputs with
  | nil => intro s _; exact List.Chain.nil
  | cons p rest ih =>
      intro s hr
      obtain ⟨m, sp⟩ := p
      simp only [PID.outputs]
      exact List.Chain.cons (Step_rate_bound s m sp hr)
        (ih (PID.Step s m sp) hr)

/-! ## Claim theorems -/

/-- **C1**: `PID.Step` computes and stores the saturated command (here
`1/20` for the main.py controller at measurement 40, setpoint 50), but its
body ends without a `return` statement, so the call
`pid.Step(measurement, setpoint)` evaluates to `None` — not to the saturated
command required by the contract
`step(measurement, setpoint) -> saturatedCommand` and consumed numerically
by main.py lines 108-112. -/
theorem step_call_returns_none_not_saturated_command :
    (PID.StepCall mainPID 40 50).2 = none ∧
      (PID.StepCall mainPID 40 50).1.command_sat = 1/20 ∧
      (PID.StepCall mainPID 40 50).2 ≠
        some ((PID.StepCall mainPID 40 50).1.command_sat) := by
  refine ⟨rfl, ?_, by simp [PID.StepCall]⟩
  norm_num [PID.StepCall, PID.Step, mainPID, PID.init]

/-- A controller constructed with parameters that are valid in the claim's
sense (gains, `Kaw`, `max_rate ≥ 0`, `T > 0`, `T_C > 0`, `min ≤ max`) but
whose output bounds exclude zero:
`PID(Kp=1, Ki=0, Kd=0, Kaw=0, T_C=1, T=0.1, max=2, min=1, max_rate=0.5)`. -/
def cexPID : PIDState := PID.init 1 0 0 0 1 (1/10) 2 1 (1/2)

/-- **C2** (counterexample): on the very first call, with all of the claim's
validity conditions satisfied but `min = 1 > 0`, the rate limiter pulls the
command toward the zero-initialised `command_sat_prev` and the output
`1/20` falls strictly below `min`, so the saturated command does not lie in
`[min, max]` on the first tick. -/
theorem first_tick_output_below_min :
    (0 ≤ cexPID.Kp ∧ 0 ≤ cexPID.Ki ∧ 0 ≤ cexPID.Kd ∧ 0 ≤ cexPID.Kaw ∧
      0 ≤ cexPID.max_rate ∧ 0 < cexPID.T ∧ 0 < cexPID.T_C ∧
      cexPID.min ≤ cexPID.max) ∧
    (PID.Step cexPID 0 5).command_sat < cexPID.min := by
  constructor
  · norm_num [cexPID, PID.init]
  · norm_num [cexPID, PID.init, PID.Step]

/-- **C2** (amended): for a freshly constructed controller with
`max_rate ≥ 0`, `T ≥ 0` and bounds satisfying `min ≤ 0 ≤ max` — so that the
zero-initialised previous saturated command itself lies in `[min, max]`, as
in main.py's configuration `min=0, max=10` — every saturated command of
every run, the first tick included, lies in `[min, max]`. -/
theorem saturated_command_mem_bounds (Kp Ki Kd Kaw T_C T mx mn mr : ℚ)
    (inputs : List (ℚ × ℚ)) (hmn : mn ≤ 0) (hmx : 0 ≤ mx)
    (hmr : 0 ≤ mr) (hT : 0 ≤ T) :
    ∀ o ∈ PID.outputs (PID.init Kp Ki Kd Kaw T_C T mx mn mr) inputs,
      mn ≤ o ∧ o ≤ mx :=
  outputs_mem_bounds inputs _ (le_trans hmn hmx) hmn hmx
    (mul_nonneg hmr hT)

/-- Witness for `saturated_command_mem_bounds`: the spec's scenario
controller on one tick with measurement 40, setpoint 50 outputs `1/20`,
which lies in `[0, 10]`. -/
theorem saturated_command_mem_bounds_witness :
    (0 : ℚ) ≤ 1/20 ∧ (1/20 : ℚ) ≤ 10 :=
  saturated_command_mem_bounds 1 0 0 0 1 (1/10) 10 0 (1/2) [(40, 50)]
    (by norm_num) (by norm_num) (by norm_num) (by norm_num) (1/20)
    (by norm_num [PID.outputs, PID.Step, PID.init])

/-- **C3**: for every run of step calls from a freshly constructed
controller with `max_rate ≥ 0` and `T ≥ 0`, consecutive saturated commands
differ by at most `max_rate * T`, and the very first output differs from the
implicit zero baseline (`command_sat_prev = 0` at construction) by at most
`max_rate * T`. -/
theorem rate_limit_invariant (Kp Ki Kd Kaw T_C T mx mn mr : ℚ)
    (inputs : List (ℚ × ℚ)) (hmr : 0 ≤ mr) (hT : 0 ≤ T) :
    List.Chain (fun a b => |b - a| ≤ mr * T) 0
      (PID.outputs (PID.init Kp Ki Kd Kaw T_C T mx mn mr) inputs) := by
  have h := outputs_chain inputs (PID.init Kp Ki Kd Kaw T_C T mx mn mr)
    (by rw [init_max_rate, init_T]; exact mul_nonneg hmr hT)
  simp only [init_max_rate, init_T, init_command_sat_prev] at h
  exact h

/-- Witness for `rate_limit_invariant`: the spec's scenario controller over
two ticks, whose outputs are `[1/20, 1/10]`: `|1/20 - 0| ≤ 1/20` and
`|1/10 - 1/20| ≤ 1/20`. -/
theorem rate_limit_invariant_witness :
    List.Chain (fun a b => |b - a| ≤ (1/2 : ℚ) * (1/10)) 0
      (PID.outputs (PID.init 1 0 0 0 1 (1/10) 10 0 (1/2))
        [(40, 50), (40, 50)]) :=
  rate_limit_invariant 1 0 0 0 1 (1/10) 10 0 (1/2) [(40, 50), (40, 50)]
    (by norm_num) (by norm_num)

/-- **C7**: from the spec's scenario controller (`Kp=1, Ki=Kd=Kaw=0, T_C=1,
T=0.1, max=10, min=0, max_rate=0.5`), two step calls with measurement 40 and
setpoint 50 store saturated commands exactly `0.05 = 1/20` and then
`0.10 = 1/10`. -/
theorem scenario_two_ticks :
    PID.outputs scenarioPID [(40, 50), (40, 50)] = [1/20, 1/10] := by
  norm_num [PID.outputs, PID.Step, scenarioPID, PID.init]

/-! ## Helper lemmas about the bounded error history -/

theorem push_eq_of_lt (h : List ℚ) (v : ℚ) (hlt : h.length < 50) :
    push h v = h ++ [v] := by
  have hc : ¬ ((h ++ [v]).length > 50) := by
    simp only [List.length_append, List.length_cons, List.length_nil]
    omega
  simp only [push]
  rw [if_neg hc]

theorem push_eq_of_full (a : ℚ) (t : List ℚ) (v : ℚ)
    (hfull : (a :: t).length = 50) :
    push (a :: t) v = t ++ [v] := by
  have hc : ((a :: t) ++ [v]).length > 50 := by
    simp only [List.length_append, List.length_cons, List.length_nil, List.length_cons]
    simp only [List.length_cons] at hfull
    omega
  simp only [push]
  rw [if_pos hc, List.cons_append, List.tail_cons]

/-- The history after a run of pushes is the suffix of length at most 50 of
the concatenation of the starting history and the pushed values. -/
theorem pushAll_eq_drop (vs : List ℚ) :
    ∀ h : List ℚ, h.length ≤ 50 →
      pushAll h vs = (h ++ vs).drop (h.length + vs.length - 50) := by
  induction vs with
  | nil =>
      intro h hh
      have hz : h.length + ([] : List ℚ).length - 50 = 0 := by
        simp only [List.length_nil]
        omega
      rw [pushAll, List.append_nil, hz, List.drop_zero]
  | cons v vs ih =>
      intro h hh
      rw [pushAll]
      rcases Nat.lt_or_ge h.length 50 with hlt | hge
      · have hc : h.length + (v :: vs).length - 50 =
            (h ++ [v]).length + vs.length - 50 := by
          simp only [List.length_append, List.length_cons, List.length_nil,
            List.length_cons]
          omega
        rw [push_eq_of_lt h v hlt,
          ih (h ++ [v])
            (by simp only [List.length_append, List.length_cons, List.length_nil]; omega),
          List.append_assoc, List.singleton_append, hc]
      · have h50 : h.length = 50 := le_antisymm hh hge
        cases h with
        | nil => simp at h50
        | cons a t =>
            have ht : t.length = 49 := by
              simp only [List.length_cons] at h50
              omega
            rw [push_eq_of_full a t v h50,
              ih (t ++ [v])
                (by simp only [List.length_append, List.length_cons, List.length_nil]; omega),
              List.append_assoc, List.singleton_append, List.cons_append]
            have hτ : (a :: t).length + (v :: vs).length - 50 =
                vs.length + 1 := by
              simp only [List.length_cons, ht]
              omega
            have hσ : (t ++ [v]).length + vs.length - 50 = vs.length := by
              simp only [List.length_append, List.length_cons, List.length_nil, ht]
              omega
            rw [hτ, List.drop_succ_cons, hσ]

/-- **C8**: starting from an empty history, the length after any sequence of
pushes is at most 50; and pushing 51 values leaves exactly the last 50 in
insertion order — the first value pushed is evicted and the 51st is kept. -/
theorem error_history_bounded_fifo (vs : List ℚ) (v₀ : ℚ) (ws : List ℚ)
    (hws : ws.length = 50) :
    (pushAll [] vs).length ≤ 50 ∧ pushAll [] (v₀ :: ws) = ws := by
  constructor
  · rw [pushAll_eq_drop vs [] (by simp)]
    simp only [List.nil_append, List.length_drop, List.length_nil]
    omega
  · rw [pushAll_eq_drop (v₀ :: ws) [] (by simp)]
    have h1 : ([] : List ℚ).length + (v₀ :: ws).length - 50 = 1 := by
      simp only [List.length_nil, List.length_cons, hws]
    rw [h1, List.nil_append, List.drop_succ_cons, List.drop_zero]

/-- Witness for `error_history_bounded_fifo`: two pushes keep the length at
2 ≤ 50, and pushing `1` followed by fifty `0`s leaves the fifty `0`s. -/
theorem error_history_bounded_fifo_witness :
    (pushAll [] [(2 : ℚ), 3]).length ≤ 50 ∧
      pushAll [] ((1 : ℚ) :: List.replicate 50 0) = List.replicate 50 0 :=
  error_history_bounded_fifo [2, 3] 1 (List.replicate 50 0) (by simp)

/-- **C10**: each tick stores `error = setpoint - measurement` and line 141
reconstructs `setpoint - error`, so the temperature history handed to the
optimizer is exactly the suffix of the measured temperatures of length at
most 50, in insertion order. -/
theorem reconstruction_roundtrip (setpoint : ℚ) (measurements : List ℚ) :
    reconstruct_temperatures setpoint (error_history_of setpoint measurements)
      = measurements.drop (measurements.length - 50) := by
  unfold reconstruct_temperatures error_history_of
  rw [pushAll_eq_drop _ [] (by simp)]
  simp only [List.nil_append, List.length_nil, Nat.zero_add, List.length_map,
    ← List.map_drop, List.map_map]
  simp [Function.comp_def, sub_sub_cancel]

/-- **C4**: the cost returned by the optimizer's cost closure is
independent of the candidate gain triple (and of the controller's prior
gain state): any two candidates give the same cost, namely the sum over the
temperature history of `(setpoint - recordedTemperature)²`. -/
theorem pid_cost_gain_independent (g₁ g₂ : Gains) (c₁ c₂ : ℚ × ℚ × ℚ)
    (temperature_history : List ℚ) (setpoint : ℚ) :
    (pid_cost g₁ c₁ temperature_history setpoint).2 =
      (pid_cost g₂ c₂ temperature_history setpoint).2 ∧
    (pid_cost g₁ c₁ temperature_history setpoint).2 =
      (temperature_history.map (fun t => (setpoint - t) ^ 2)).sum := by
  refine ⟨rfl, ?_⟩
  show temperature_history.foldl
      (fun total temp => total + (setpoint - temp) ^ 2) 0 = _
  rw [List.sum_eq_foldl, List.foldl_map]

/-- **C5** (counterexample): a single evaluation of the cost closure at
candidate `(1, 1, 1)` overwrites the live controller's gain fields with the
candidate, so the gain triple does change during a call to `optimize`, not
only via the final assignment of the returned result. -/
theorem cost_eval_changes_gains :
    (pid_cost mainGains (1, 1, 1) [] target_temp).1 ≠ mainGains := by
  simp only [pid_cost, mainGains, ne_eq, Gains.mk.injEq]
  norm_num

/-- **C5** (amended): during `optimize`, every evaluation of the cost
closure sets the controller's gain fields to the candidate triple under
evaluation (main.py lines 56-58); the optimizer's returned result is
additionally assigned to the gains by the retune block only after the
optimizer completes. -/
theorem cost_eval_sets_gains_to_candidate (g : Gains) (c : ℚ × ℚ × ℚ)
    (temperature_history : List ℚ) (setpoint : ℚ) :
    (pid_cost g c temperature_history setpoint).1 = ⟨c.1, c.2.1, c.2.2⟩ :=
  rfl

/-- **C6** (counterexample): an exception raised by the optimizer propagates
out of `optimize_pid` (which has no handler) into the loop's generic
`except Exception` arm, which logs with `log.error` and re-raises: the loop
aborts instead of continuing to the next tick with the previous gains. -/
theorem optimizer_failure_aborts_loop :
    tick_result (Except.error TickExc.exception) = LoopOutcome.aborted ∧
      tick_result (Except.error TickExc.exception) ≠
        LoopOutcome.nextTick mainGains := by
  refine ⟨rfl, ?_⟩
  intro hcontra
  simp only [tick_result] at hcontra
  exact LoopOutcome.noConfusion hcontra

/-- **C6** (amended): a failing minimizer call propagates its exception
unchanged out of `optimize_pid`, and a tick body ending in a
non-`KeyboardInterrupt` exception aborts the loop; a successful call has
`result.x` applied unconditionally (`result.success` is never inspected)
and the loop continues. -/
theorem tick_result_spec (g : Gains) (x : ℚ × ℚ × ℚ) :
    (∀ e, optimize_pid_result (Except.error e) = Except.error e) ∧
      optimize_pid_result (Except.ok x) =
        Except.ok (⟨x.1, x.2.1, x.2.2⟩ : Gains) ∧
      tick_result (Except.error TickExc.exception) = LoopOutcome.aborted ∧
      tick_result (Except.ok g) = LoopOutcome.nextTick g :=
  ⟨fun _ => rfl, rfl, rfl, rfl⟩

/-- **C9**: the retune trigger of main.py line 140 fires exactly when the
history length exceeds 10 and the elapsed time modulo 5 seconds falls below
`tuning_interval`; it reads nothing but these two quantities, and on a tick
where it does not fire the retune block leaves the gains unchanged. -/
theorem optimization_trigger_spec (gains optimize_result : Gains)
    (error_history : List ℚ) (elapsed_time : ℚ) :
    (optimization_trigger error_history.length elapsed_time = true ↔
      10 < error_history.length ∧ pymod elapsed_time 5 < tuning_interval) ∧
    (optimization_trigger error_history.length elapsed_time = false →
      retune gains error_history elapsed_time optimize_result = gains) := by
  constructor
  · simp [optimization_trigger]
  · intro hfalse
    simp [retune, hfalse]

/-- Witness for `optimization_trigger_spec`: with an empty history and
elapsed time 0 the trigger does not fire and the retune block returns the
gains unchanged. -/
theorem optimization_trigger_spec_witness :
    retune mainGains [] 0 ⟨1, 1, 1⟩ = mainGains :=
  (optimization_trigger_spec mainGains ⟨1, 1, 1⟩ [] 0).2
    (by simp [optimization_trigger])

end ThermoPID
